import Mathlib

/-
Verification development for the disclosed-backend repository, a
"Proof of Consideration" marketplace whose core is a multi-dimensional
text-authenticity scoring engine (AID).

The TypeScript web frontend and the shared type package are embedded
directly from the sources under apps/web and packages/shared.  The AID
engine itself is a Python package whose implementation files are not part
of the repository snapshot (only its README and the design document
describe it); every definition whose doc comment starts with
"Modelled from the spec:" reconstructs that missing code faithfully from
the design document and the aid README.
-/

namespace Shared

/-- Mirrors packages/shared/types.ts, interface VerificationScores:
five per-dimension scores plus the combined score. -/
structure VerificationScores where
  relevanceScore : ℚ
  noveltyScore : ℚ
  coherenceScore : ℚ
  effortScore : ℚ
  aiDetectionScore : ℚ
  combinedScore : ℚ
deriving DecidableEq

/-- Mirrors packages/shared/types.ts, interface VerificationResult extends
VerificationScores with passed, feedback and processingTimeMs. -/
structure VerificationResult extends VerificationScores where
  passed : Bool
  feedback : String
  processingTimeMs : ℚ
deriving DecidableEq

/-- The per-dimension score fields of a VerificationResult, in declaration
order of packages/shared/types.ts, excluding the combined score. -/
def dimensionScores (r : VerificationResult) : List ℚ :=
  [r.relevanceScore, r.noveltyScore, r.coherenceScore, r.effortScore,
   r.aiDetectionScore]

/-- Mirrors packages/shared/types.ts, constant VERIFICATION_THRESHOLDS:
the four named threshold defaults exposed to the web app. -/
def VERIFICATION_THRESHOLDS : List (String × ℚ) :=
  [("MIN_RELEVANCE", 0.65), ("MIN_NOVELTY", 0.70),
   ("MIN_COHERENCE", 0.60), ("MIN_COMBINED", 0.60)]

/-- Mirrors apps/web/lib/utils.ts, getScoreColor. -/
def getScoreColor (score : ℚ) : String :=
  if score ≥ 0.7 then "text-success"
  else if score ≥ 0.5 then "text-warning"
  else "text-error"

/-- Mirrors apps/web/lib/utils.ts, getScoreBgColor. -/
def getScoreBgColor (score : ℚ) : String :=
  if score ≥ 0.7 then "bg-success"
  else if score ≥ 0.5 then "bg-warning"
  else "bg-error"

/-- A concrete VerificationResult used as an explicit input in
counterexamples. -/
def sampleResult : VerificationResult :=
  { relevanceScore := 0.82, noveltyScore := 0.74, coherenceScore := 0.66,
    effortScore := 0.58, aiDetectionScore := 0.71, combinedScore := 0.69,
    passed := true, feedback := "ok", processingTimeMs := 1200 }

end Shared

namespace ScoreItem

/-- Mirrors the local getColor helper declared inside the ScoreItem
component of apps/web/components/examples/ScoreCard.tsx. -/
def getColor (score : ℚ) : String :=
  if score ≥ 0.7 then "text-success"
  else if score ≥ 0.5 then "text-warning"
  else "text-error"

end ScoreItem

namespace SubmitPage

/-- Campaign fields used by the proof-submission page
apps/web/app/(considerer)/tasks/[id]/submit/page.tsx. -/
structure Campaign where
  title : String
  proofPrompt : String
  proofMinLength : Nat
  proofMaxLength : Nat
  bountyAmount : ℚ
deriving DecidableEq

/-- Task shape fetched by the proof-submission page. -/
structure Task where
  id : String
  campaign : Campaign
deriving DecidableEq

/-- Observable outcome of one handleSubmit invocation: the early return
when no task is loaded, the user-visible validation error, or the actual
api.submitProof call carrying the response text. -/
inductive SubmitOutcome
  | noop
  | validationError (message : String)
  | apiCall (responseText : String)
deriving DecidableEq

/-- Mirrors handleSubmit of the proof-submission page: return early when
the task is not loaded, set a user-visible error and return when the
response is shorter than proofMinLength, otherwise invoke api.submitProof
with the response text. -/
def handleSubmit (task : Option Task) (response : String) : SubmitOutcome :=
  match task with
  | none => SubmitOutcome.noop
  | some t =>
    if response.length < t.campaign.proofMinLength then
      SubmitOutcome.validationError
        ("Response must be at least " ++ toString t.campaign.proofMinLength
          ++ " characters")
    else
      SubmitOutcome.apiCall response

/-- Mirrors the disabled attribute of the submit button:
isSubmitting or response.length below proofMinLength. -/
def submitDisabled (isSubmitting : Bool) (response : String) (t : Task) :
    Bool :=
  isSubmitting || decide (response.length < t.campaign.proofMinLength)

end SubmitPage

namespace AID

/-- Modelled from the spec: ScoreResult of the aid package (types.py is
not in the snapshot) — a numeric value in [0,1] and a human-readable
interpretation string. -/
structure ScoreResult where
  value : ℚ
  interpretation : String
deriving DecidableEq

/-- Modelled from the spec: behavioral metadata of a VerificationRequest
(elapsed seconds, revision count, start timestamp). -/
structure Metadata where
  timeSpentSeconds : ℚ
  revisionCount : Nat
  startedAt : String
deriving DecidableEq

/-- Modelled from the spec: VerificationRequest — response text, optional
source content, optional prompt, optional metadata, prior responses for
novelty comparison. -/
structure Request where
  response : String
  content : Option String
  prompt : Option String
  metadata : Option Metadata
  existingResponses : List String
deriving DecidableEq

/-- Modelled from the spec: the five threshold minima applied by the
orchestrator in its thresholding step (engine.py is not in the
snapshot). -/
structure Thresholds where
  minCombined : ℚ
  minRelevance : ℚ
  minIrreducibility : ℚ
  minNovelty : ℚ
  minCoherence : ℚ
deriving DecidableEq

/-- Modelled from the spec: the orchestrator thresholding step,
passed = combined ≥ min_combined AND relevance ≥ min_relevance AND
irreducibility ≥ min_irreducibility AND novelty ≥ min_novelty AND
coherence ≥ min_coherence, each comparison boundary inclusive. -/
def decidePassed (t : Thresholds) (combined rel irr nov coh : ℚ) : Bool :=
  decide (combined ≥ t.minCombined) && decide (rel ≥ t.minRelevance) &&
  decide (irr ≥ t.minIrreducibility) && decide (nov ≥ t.minNovelty) &&
  decide (coh ≥ t.minCoherence)

/-- Clamp a rational into the closed unit interval. -/
def clamp01 (x : ℚ) : ℚ := max 0 (min 1 x)

/-- Modelled from the spec: the perplexity-scorer formula
score = clamp((P_c / P_u − 0.3) / 1.2, 0, 1) where P_c is the conditional
and P_u the unconditional perplexity (perplexity.py is not in the
snapshot; the formula is also documented in apps/api/aid/README.md). -/
def irreducibilityFromPpl (pc pu : ℚ) : ℚ :=
  clamp01 ((pc / pu - 0.3) / 1.2)

/-- Modelled from the spec: the causal-LM provider computes the perplexity
of a text, optionally conditioned on a context; a call can fail, which the
model renders as none. -/
abbrev CausalLM := String → Option String → Option ℚ

/-- Modelled from the spec: a scorer may fail internally; the model
renders a raised exception as an error value. -/
abbrev Scorer := Request → Except String ScoreResult

/-- Modelled from the spec: the perplexity scorer — with content, derive
irreducibility from the perplexity reduction ratio; without content, fall
back to a normalized unconditional-perplexity score (the spec gives no
closed-form for the fallback normalization, so a clamped linear
normalization stands in); empty or near-empty text (nonpositive
perplexity) yields the defined minimum score; a failed provider call
surfaces as a scorer error. -/
def perplexityScorer (lm : CausalLM) (req : Request) :
    Except String ScoreResult :=
  match req.content with
  | some c =>
    match lm req.response none, lm req.response (some c) with
    | some pu, some pc =>
      if pu ≤ 0 then
        Except.ok { value := 0,
                    interpretation := "empty or near-empty text, minimum score" }
      else
        Except.ok { value := irreducibilityFromPpl pc pu,
                    interpretation := "irreducibility from perplexity reduction" }
    | _, _ => Except.error "causal-LM provider unavailable"
  | none =>
    match lm req.response none with
    | some pu =>
      Except.ok { value := clamp01 (pu / 100),
                  interpretation := "normalized unconditional perplexity" }
    | none => Except.error "causal-LM provider unavailable"

/-- Modelled from the spec: the documented neutral value substituted when
a scorer degrades, together with its interpretation flag. -/
def neutralResult (name : String) : ScoreResult :=
  { value := 1/2, interpretation := name ++ " degraded (neutral default)" }

/-- Decide membership of a score value in the closed unit interval. -/
def inRange01 (q : ℚ) : Bool := decide (0 ≤ q) && decide (q ≤ 1)

/-- Modelled from the spec: the orchestrator guard around each scorer —
a scorer failure or an out-of-range output is caught locally and
substituted with the flagged neutral value; never fatal. -/
def runScorer (name : String) (f : Scorer) (req : Request) : ScoreResult :=
  match f req with
  | Except.ok r => if inRange01 r.value then r else neutralResult name
  | Except.error _ => neutralResult name

/-- Modelled from the spec: the fixed ordered set of six scorers held by
the orchestrator. -/
structure Scorers where
  perplexity : Scorer
  relevance : Scorer
  novelty : Scorer
  coherence : Scorer
  effort : Scorer
  aiPattern : Scorer

/-- Modelled from the spec: the six per-dimension ScoreResults of the
engine record. -/
structure DimScores where
  irreducibility : ScoreResult
  relevance : ScoreResult
  novelty : ScoreResult
  coherence : ScoreResult
  effort : ScoreResult
  aiPattern : ScoreResult
deriving DecidableEq

/-- Modelled from the spec: the engine VerificationResult — six dimension
ScoreResults, combined score, passed flag, feedback summary, processing
time. -/
structure VerificationResult where
  scores : DimScores
  combinedScore : ℚ
  passed : Bool
  feedbackSummary : String
  processingTimeMs : ℚ
deriving DecidableEq

/-- The six per-dimension score values of an engine record, in the order
irreducibility, relevance, novelty, coherence, effort, ai-pattern. -/
def DimScores.values (d : DimScores) : List ℚ :=
  [d.irreducibility.value, d.relevance.value, d.novelty.value,
   d.coherence.value, d.effort.value, d.aiPattern.value]

/-- Modelled from the spec: the templated feedback summary naming the
dimensions below threshold. -/
def feedbackText (t : Thresholds) (combined rel irr nov coh : ℚ) : String :=
  let below :=
    (if rel < t.minRelevance then ["relevance"] else []) ++
    (if irr < t.minIrreducibility then ["irreducibility"] else []) ++
    (if nov < t.minNovelty then ["novelty"] else []) ++
    (if coh < t.minCoherence then ["coherence"] else []) ++
    (if combined < t.minCombined then ["combined"] else [])
  if below.isEmpty then "all thresholds met"
  else "below threshold: " ++ String.intercalate ", " below

/-- Modelled from the spec: the orchestrator scoring, aggregating and
thresholding pipeline on a cache miss — run the six scorers behind the
degradation guard, aggregate their values (the aggregation function is a
parameter; in the engine it is the weighted geometric mean computed in
floating point), threshold, and build the result record.  Wall-clock
processing time is not part of a pure model and is recorded as zero. -/
def verify (sc : Scorers) (agg : ℚ → ℚ → ℚ → ℚ → ℚ → ℚ → ℚ)
    (t : Thresholds) (req : Request) : VerificationResult :=
  let irr := runScorer "perplexity" sc.perplexity req
  let rel := runScorer "relevance" sc.relevance req
  let nov := runScorer "novelty" sc.novelty req
  let coh := runScorer "coherence" sc.coherence req
  let eff := runScorer "effort" sc.effort req
  let ai := runScorer "ai-pattern" sc.aiPattern req
  let combined := agg irr.value rel.value nov.value coh.value eff.value
    ai.value
  { scores := ⟨irr, rel, nov, coh, eff, ai⟩
    combinedScore := combined
    passed := decidePassed t combined rel.value irr.value nov.value coh.value
    feedbackSummary := feedbackText t combined rel.value irr.value nov.value
      coh.value
    processingTimeMs := 0 }

namespace Cache

/-- Modelled from the spec: the cache key is a stable hash (SHA-256 in
the deployment notes) of the (response, content, prompt) triple; the
model idealizes the collision-free hash as the triple itself. -/
abbrev Fingerprint := String × Option String × Option String

/-- Modelled from the spec: compute the fingerprint of a request. -/
def fingerprint (req : Request) : Fingerprint :=
  (req.response, req.content, req.prompt)

/-- Modelled from the spec: cache entries expire after a fixed TTL of one
hour, counted in seconds. -/
def cacheTTL : Nat := 3600

/-- Modelled from the spec: the result cache — entries carry the key, the
memoized result and the store time, most recent first. -/
abbrev Store := List (Fingerprint × VerificationResult × Nat)

/-- Modelled from the spec: cache lookup — the most recent entry under
the key, provided it has not expired. -/
def cacheLookup (c : Store) (k : Fingerprint) (now : Nat) :
    Option VerificationResult :=
  match c.find? (fun e => e.1 == k) with
  | some (_, r, stored) => if now < stored + cacheTTL then some r else none
  | none => none

/-- Modelled from the spec: the orchestrator cache discipline — on a hit
return the memoized result unchanged, on a miss compute the result and
store it under the fingerprint with the current time. -/
def verifyCached (compute : Request → VerificationResult) (c : Store)
    (now : Nat) (req : Request) : VerificationResult × Store :=
  let k := fingerprint req
  match cacheLookup c k now with
  | some r => (r, c)
  | none =>
    let r := compute req
    (r, (k, r, now) :: c)

end Cache

/-- Mirrors the AIDConfig constructor documented in
apps/api/aid/README.md with its default values: model identifiers,
accelerator preference, the five threshold minima, the six aggregation
weights, and the cache options. -/
structure AIDConfig where
  perplexityModel : String := "gpt2-medium"
  embeddingModel : String := "all-MiniLM-L6-v2"
  useGpu : Bool := true
  minRelevance : ℚ := 0.60
  minIrreducibility : ℚ := 0.55
  minNovelty : ℚ := 0.55
  minCoherence : ℚ := 0.50
  minCombined : ℚ := 0.55
  weightRelevance : ℚ := 0.20
  weightIrreducibilityContent : ℚ := 0.20
  weightIrreducibilityAi : ℚ := 0.15
  weightNovelty : ℚ := 0.20
  weightCoherence : ℚ := 0.15
  weightEffort : ℚ := 0.10
  enableCache : Bool := true
  cacheBackend : String := "memory"
deriving DecidableEq

/-- The AIDConfig built with all documented defaults. -/
def defaultConfig : AIDConfig := {}

/-- The score-threshold fields recognized by AIDConfig, in the order of
the README configuration listing. -/
def AIDConfig.thresholdValues (c : AIDConfig) : List ℚ :=
  [c.minRelevance, c.minIrreducibility, c.minNovelty, c.minCoherence,
   c.minCombined]

/-- The aggregation-weight fields recognized by AIDConfig, in the order
of the README configuration listing. -/
def AIDConfig.weightValues (c : AIDConfig) : List ℚ :=
  [c.weightRelevance, c.weightIrreducibilityContent,
   c.weightIrreducibilityAi, c.weightNovelty, c.weightCoherence,
   c.weightEffort]

/-- A concrete scorer assembly whose causal-LM provider fails on every
call while the other five scorers are healthy, used as an explicit
witness input. -/
def degradedScorers : Scorers :=
  ⟨perplexityScorer (fun _ _ => none),
   fun _ => Except.ok ⟨0.8, "r"⟩, fun _ => Except.ok ⟨0.8, "n"⟩,
   fun _ => Except.ok ⟨0.8, "c"⟩, fun _ => Except.ok ⟨0.8, "e"⟩,
   fun _ => Except.ok ⟨0.8, "a"⟩⟩

/-- A concrete aggregation stand-in used as an explicit witness input. -/
def sampleAgg : ℚ → ℚ → ℚ → ℚ → ℚ → ℚ → ℚ :=
  fun a b c d e f => (a + b + c + d + e + f) / 6

/-- Concrete thresholds used as an explicit witness input. -/
def sampleThresholds : Thresholds := ⟨0.55, 0.60, 0.55, 0.55, 0.50⟩

/-- A concrete request used as an explicit witness input. -/
def sampleRequest : Request :=
  ⟨"resp", some "content", some "prompt", none, []⟩

/-- A concrete engine result used as an explicit witness input. -/
def sampleEngineResult : VerificationResult :=
  ⟨⟨⟨0.5, "i"⟩, ⟨0.6, "r"⟩, ⟨0.7, "n"⟩, ⟨0.8, "c"⟩, ⟨0.9, "e"⟩,
    ⟨0.4, "a"⟩⟩, 0.6, true, "ok", 0⟩

/-- Modelled from the spec: the small epsilon of the combined-score
formula. -/
noncomputable def aidEps : ℝ := 1e-6

/-- Modelled from the spec: the orchestrator aggregation step on the six
dimension scores, combined = exp(Σ weight_i * ln(score_i + ε)) − ε, the
weighted geometric mean (engine.py is not in the snapshot; the formula is
also documented in apps/api/aid/README.md). -/
noncomputable def combinedScore (s w : Fin 6 → ℝ) : ℝ :=
  Real.exp (∑ i, w i * Real.log (s i + aidEps)) - aidEps

/-- The default aggregation weights of the README, as reals, indexed in
the order relevance, irreducibility-content, irreducibility-ai, novelty,
coherence, effort. -/
noncomputable def defaultWeights : Fin 6 → ℝ
  | 0 => 0.20
  | 1 => 0.20
  | 2 => 0.15
  | 3 => 0.20
  | 4 => 0.15
  | 5 => 0.10

end AID

/-- Claim C1: for every verification outcome, the boolean passed is true
if and only if the combined minimum and every configured per-dimension
minimum are simultaneously satisfied, each comparison boundary
inclusive — a score exactly equal to its threshold passes. -/
theorem decidePassed_iff_thresholds (t : AID.Thresholds)
    (combined rel irr nov coh : ℚ) :
    AID.decidePassed t combined rel irr nov coh = true ↔
      (combined ≥ t.minCombined ∧ rel ≥ t.minRelevance ∧
       irr ≥ t.minIrreducibility ∧ nov ≥ t.minNovelty ∧
       coh ≥ t.minCoherence) := by
  simp [AID.decidePassed, and_assoc]

/-- Claim C6: with source content supplied and a positive unconditional
perplexity, the perplexity-scorer irreducibility score equals
clamp((r − 0.3) / 1.2, 0, 1) for r = P_c / P_u, lies in [0,1], and is
clamped at both ends: zero for ratios up to 0.3 and one for ratios from
1.5 on. -/
theorem irreducibility_eq_clamp (pc pu : ℚ) (_hpu : 0 < pu) :
    AID.irreducibilityFromPpl pc pu
        = max 0 (min 1 ((pc / pu - 0.3) / 1.2)) ∧
      0 ≤ AID.irreducibilityFromPpl pc pu ∧
      AID.irreducibilityFromPpl pc pu ≤ 1 ∧
      (pc / pu ≤ 0.3 → AID.irreducibilityFromPpl pc pu = 0) ∧
      (1.5 ≤ pc / pu → AID.irreducibilityFromPpl pc pu = 1) := by
  have hrw : (pc / pu - 0.3) / 1.2 = (pc / pu) * (5/6) - 1/4 := by ring
  refine ⟨rfl, le_max_left 0 _, ?_, ?_, ?_⟩
  · exact max_le (by norm_num) (min_le_left 1 _)
  · intro h
    unfold AID.irreducibilityFromPpl AID.clamp01
    rw [hrw]
    have h1 : (pc / pu) * (5/6) - 1/4 ≤ 0 := by linarith
    rw [min_eq_right (h1.trans (by norm_num)), max_eq_left h1]
  · intro h
    unfold AID.irreducibilityFromPpl AID.clamp01
    rw [hrw]
    have h1 : (1:ℚ) ≤ (pc / pu) * (5/6) - 1/4 := by linarith
    rw [min_eq_left h1, max_eq_right (by norm_num : (0:ℚ) ≤ 1)]

/-- Witness for C6 at the concrete ratio P_c = 2, P_u = 1: the score is
clamped to exactly one. -/
theorem irreducibility_eq_clamp_witness :
    AID.irreducibilityFromPpl 2 1 = 1 :=
  (irreducibility_eq_clamp 2 1 (by norm_num)).2.2.2.2 (by norm_num)

/-- Claim C9: on the proof-submission page, api.submitProof is never
invoked with a response shorter than proofMinLength — handleSubmit only
reaches the API call when the length precondition holds (and then passes
the response unchanged), and the submit button is enabled only when the
length precondition holds. -/
theorem submitProof_length_guard :
    (∀ (task : Option SubmitPage.Task) (response r : String),
        SubmitPage.handleSubmit task response
            = SubmitPage.SubmitOutcome.apiCall r →
          ∃ t, task = some t ∧
            t.campaign.proofMinLength ≤ response.length ∧ r = response) ∧
      (∀ (isSubmitting : Bool) (response : String) (t : SubmitPage.Task),
        SubmitPage.submitDisabled isSubmitting response t = false →
          t.campaign.proofMinLength ≤ response.length) := by
  constructor
  · intro task response r h
    cases task with
    | none => simp [SubmitPage.handleSubmit] at h
    | some t =>
      refine ⟨t, rfl, ?_⟩
      by_cases hlen : response.length < t.campaign.proofMinLength
      · simp [SubmitPage.handleSubmit, hlen] at h
      · simp [SubmitPage.handleSubmit, hlen] at h
        exact ⟨Nat.le_of_not_lt hlen, h.symm⟩
  · intro isSubmitting response t h
    simp [SubmitPage.submitDisabled] at h
    exact h.2

/-- Witness for C9 at a concrete task with proofMinLength 3 and the
four-character response abcd: the enabled submit button implies the
length precondition. -/
theorem submitProof_length_guard_witness :
    (3 : Nat) ≤ "abcd".length :=
  submitProof_length_guard.2 false "abcd"
    ⟨"t1", ⟨"title", "prompt", 3, 100, 5⟩⟩ (by decide)

/-- Claim C10: the score-to-color classification duplicated between
getScoreColor in apps/web/lib/utils.ts and the local getColor inside the
ScoreItem component agrees at every score, and both classify into
text-success for scores from 0.7 on, text-warning for scores in
[0.5, 0.7), and text-error below 0.5, each band inclusive at its lower
edge. -/
theorem getScoreColor_eq_getColor :
    ∀ s : ℚ, Shared.getScoreColor s = ScoreItem.getColor s ∧
      (0.7 ≤ s → Shared.getScoreColor s = "text-success") ∧
      (0.5 ≤ s ∧ s < 0.7 → Shared.getScoreColor s = "text-warning") ∧
      (s < 0.5 → Shared.getScoreColor s = "text-error") := by
  intro s
  refine ⟨rfl, ?_, ?_, ?_⟩
  · intro h
    simp [Shared.getScoreColor, ge_iff_le, h]
  · rintro ⟨h1, h2⟩
    simp [Shared.getScoreColor, ge_iff_le, h1, not_le.mpr h2]
  · intro h
    have h2 : s < 0.7 := h.trans_le (by norm_num)
    simp [Shared.getScoreColor, ge_iff_le, not_le.mpr h, not_le.mpr h2]

/-- Witness for C10 at the concrete score 0.75: both classifiers return
text-success. -/
theorem getScoreColor_eq_getColor_witness :
    Shared.getScoreColor 0.75 = "text-success" :=
  (getScoreColor_eq_getColor 0.75).2.1 (by norm_num)

/-- Counterexample to claim C7 as stated: at the explicit record
sampleResult, the VerificationResult of packages/shared/types.ts carries
five per-dimension score fields, not six — the interface declares
relevanceScore, noveltyScore, coherenceScore, effortScore and
aiDetectionScore besides combinedScore, and no separate
perplexity/irreducibility field exists. -/
theorem verificationResult_six_dimensions_false :
    (Shared.dimensionScores Shared.sampleResult).length ≠ 6 := by
  decide

/-- Claim C7 amended: every VerificationResult record contains exactly
five per-dimension scores (relevance, novelty, coherence, effort,
AI-detection) in addition to the combined score, the boolean passed flag,
the feedback string and the processing time — and these nine components
determine the record completely. -/
theorem verificationResult_five_dimensions
    (r₁ r₂ : Shared.VerificationResult)
    (h : Shared.dimensionScores r₁ = Shared.dimensionScores r₂ ∧
         r₁.combinedScore = r₂.combinedScore ∧ r₁.passed = r₂.passed ∧
         r₁.feedback = r₂.feedback ∧
         r₁.processingTimeMs = r₂.processingTimeMs) :
    r₁ = r₂ ∧ (Shared.dimensionScores r₁).length = 5 := by
  obtain ⟨hd, hc, hp, hf, ht⟩ := h
  obtain ⟨⟨a₁, b₁, c₁, d₁, e₁, f₁⟩, p₁, fb₁, pt₁⟩ := r₁
  obtain ⟨⟨a₂, b₂, c₂, d₂, e₂, f₂⟩, p₂, fb₂, pt₂⟩ := r₂
  simp_all [Shared.dimensionScores]

/-- Witness for the amended C7 at the concrete record sampleResult. -/
theorem verificationResult_five_dimensions_witness :
    Shared.sampleResult = Shared.sampleResult ∧
      (Shared.dimensionScores Shared.sampleResult).length = 5 :=
  verificationResult_five_dimensions Shared.sampleResult Shared.sampleResult
    ⟨rfl, rfl, rfl, rfl, rfl⟩

/-- Counterexample to claim C8 as stated: neither of the two
configuration surfaces present in the repository recognizes six score
thresholds — the AIDConfig documented in apps/api/aid/README.md
recognizes five, and the shared web constant VERIFICATION_THRESHOLDS
exposes four. -/
theorem aidConfig_six_thresholds_false :
    ¬ (AID.defaultConfig.thresholdValues.length = 6 ∨
       Shared.VERIFICATION_THRESHOLDS.length = 6) := by
  decide

/-- Claim C8 amended: the engine AIDConfig recognizes five distinct score
thresholds (relevance, irreducibility, novelty, coherence, combined) with
documented defaults 0.60, 0.55, 0.55, 0.50, 0.55, while the shared web
constants expose four thresholds with defaults 0.65, 0.70, 0.60, 0.60;
the six documented aggregation weights are recognized as well. -/
theorem aidConfig_five_thresholds :
    AID.defaultConfig.thresholdValues = [0.60, 0.55, 0.55, 0.50, 0.55] ∧
      AID.defaultConfig.thresholdValues.length = 5 ∧
      (Shared.VERIFICATION_THRESHOLDS.map Prod.snd)
          = [0.65, 0.70, 0.60, 0.60] ∧
      Shared.VERIFICATION_THRESHOLDS.length = 4 ∧
      AID.defaultConfig.weightValues
          = [0.20, 0.20, 0.15, 0.20, 0.15, 0.10] := by
  refine ⟨?_, by decide, ?_, by decide, ?_⟩ <;> norm_num
    [AID.defaultConfig, AID.AIDConfig.thresholdValues,
     AID.AIDConfig.weightValues, Shared.VERIFICATION_THRESHOLDS]

/-- Claim C4: when every call into the causal-LM provider fails, verify
still returns a complete VerificationResult — the perplexity dimension is
substituted with the flagged neutral value (value 1/2 and a degraded
interpretation) while the remaining dimensions are scored normally; the
total return type of verify renders the absence of a propagated
exception. -/
theorem verify_perplexity_degraded (lm : AID.CausalLM) (sc : AID.Scorers)
    (agg : ℚ → ℚ → ℚ → ℚ → ℚ → ℚ → ℚ) (t : AID.Thresholds)
    (req : AID.Request)
    (hlm : ∀ s c, lm s c = none)
    (hsc : sc.perplexity = AID.perplexityScorer lm) :
    (AID.verify sc agg t req).scores.irreducibility
        = AID.neutralResult "perplexity" ∧
      (AID.verify sc agg t req).scores.irreducibility.value = 1/2 ∧
      (AID.verify sc agg t req).scores.irreducibility.interpretation
        = "perplexity degraded (neutral default)" ∧
      (AID.verify sc agg t req).scores.relevance
        = AID.runScorer "relevance" sc.relevance req := by
  have hp : sc.perplexity req
      = Except.error "causal-LM provider unavailable" := by
    rw [hsc]
    unfold AID.perplexityScorer
    cases hc : req.content <;> simp [hlm]
  refine ⟨?_, ?_, ?_, rfl⟩ <;>
    simp [AID.verify, AID.runScorer, hp, AID.neutralResult]

/-- Witness for C4: a concrete engine whose causal-LM provider fails on
every call, five healthy scorers, an additive aggregation stand-in and a
concrete request — the perplexity dimension comes back as the neutral
value one half. -/
theorem verify_perplexity_degraded_witness :
    (AID.verify AID.degradedScorers AID.sampleAgg AID.sampleThresholds
        AID.sampleRequest).scores.irreducibility.value = 1/2 :=
  (verify_perplexity_degraded (fun _ _ => none) AID.degradedScorers
    AID.sampleAgg AID.sampleThresholds AID.sampleRequest
    (fun _ _ => rfl) rfl).2.1

/-- Claim C5: verify is idempotent through the result cache — after a
first call on a cache miss, a second call with the identical
(response, content, prompt) fingerprint within the TTL returns the
bit-identical memoized VerificationResult and leaves the cache unchanged;
the TTL is the fixed 3600 seconds (one hour) and entries are keyed by the
fingerprint of the triple. -/
theorem verifyCached_idempotent
    (compute : AID.Request → AID.VerificationResult)
    (c0 : AID.Cache.Store) (t1 t2 : Nat) (req : AID.Request)
    (hmiss : AID.Cache.cacheLookup c0 (AID.Cache.fingerprint req) t1 = none)
    (_horder : t1 ≤ t2)
    (httl : t2 < t1 + AID.Cache.cacheTTL) :
    (AID.Cache.verifyCached compute
        ((AID.Cache.verifyCached compute c0 t1 req).2) t2 req).1
        = (AID.Cache.verifyCached compute c0 t1 req).1 ∧
      (AID.Cache.verifyCached compute
        ((AID.Cache.verifyCached compute c0 t1 req).2) t2 req).2
        = (AID.Cache.verifyCached compute c0 t1 req).2 ∧
      AID.Cache.cacheTTL = 3600 := by
  have hfirst : AID.Cache.verifyCached compute c0 t1 req
      = (compute req,
         (AID.Cache.fingerprint req, compute req, t1) :: c0) := by
    simp [AID.Cache.verifyCached, hmiss]
  have hhit : AID.Cache.cacheLookup
      ((AID.Cache.fingerprint req, compute req, t1) :: c0)
      (AID.Cache.fingerprint req) t2 = some (compute req) := by
    simp [AID.Cache.cacheLookup, List.find?, httl]
  rw [hfirst]
  simp [AID.Cache.verifyCached, hhit, AID.Cache.cacheTTL]

/-- Witness for C5: a constant compute function, the empty cache, the
concrete times 0 and 10, and a concrete request — the second call within
the TTL returns the identical result. -/
theorem verifyCached_idempotent_witness :
    (AID.Cache.verifyCached (fun _ => AID.sampleEngineResult)
        ((AID.Cache.verifyCached (fun _ => AID.sampleEngineResult)
            [] 0 AID.sampleRequest).2) 10 AID.sampleRequest).1
      = (AID.Cache.verifyCached (fun _ => AID.sampleEngineResult)
          [] 0 AID.sampleRequest).1 :=
  (verifyCached_idempotent (fun _ => AID.sampleEngineResult) [] 0 10
    AID.sampleRequest rfl (by decide) (by decide)).1

/-- Claim C2: for six dimension scores (nonnegative, as every dimension
score is) and any aggregation weights, the orchestrator combined score is
exp(Σ w_i * ln(s_i + ε)) − ε with the fixed ε = 1e-6, and this is the
weighted geometric mean: combined + ε equals the weighted product
Π (s_i + ε)^(w_i). -/
theorem combinedScore_geometric_mean (s w : Fin 6 → ℝ)
    (hs : ∀ i, 0 ≤ s i) :
    AID.combinedScore s w
        = Real.exp (∑ i, w i * Real.log (s i + AID.aidEps)) - AID.aidEps ∧
      AID.aidEps = 1 / 1000000 ∧
      AID.combinedScore s w + AID.aidEps
        = ∏ i, (s i + AID.aidEps) ^ (w i) := by
  have heps : (0:ℝ) < AID.aidEps := by norm_num [AID.aidEps]
  have hpos : ∀ i, 0 < s i + AID.aidEps := fun i => by
    have := hs i; linarith
  refine ⟨rfl, by norm_num [AID.aidEps], ?_⟩
  unfold AID.combinedScore
  rw [sub_add_cancel, Real.exp_sum]
  refine Finset.prod_congr rfl fun i _ => ?_
  rw [Real.rpow_def_of_pos (hpos i), mul_comm]

/-- Witness for C2 at the all-ones score vector under the default
weights: the epsilon of the aggregation formula is one millionth. -/
theorem combinedScore_geometric_mean_witness :
    AID.aidEps = 1 / 1000000 :=
  (combinedScore_geometric_mean (fun _ => 1) AID.defaultWeights
    (fun _ => zero_le_one)).2.1

/-- The orchestrator degradation guard never lets a dimension value leave
the closed unit interval: an in-range scorer output passes through and
everything else is replaced by the neutral one half. -/
theorem runScorer_value_mem (name : String) (f : AID.Scorer)
    (req : AID.Request) :
    0 ≤ (AID.runScorer name f req).value ∧
      (AID.runScorer name f req).value ≤ 1 := by
  unfold AID.runScorer
  cases h : f req with
  | error e => constructor <;> norm_num [AID.neutralResult]
  | ok r =>
    by_cases hr : AID.inRange01 r.value = true
    · have := hr
      simp [AID.inRange01] at this
      simpa [hr] using this
    · constructor <;> norm_num [hr, AID.neutralResult]

/-- The default aggregation weights are nonnegative. -/
theorem defaultWeights_nonneg : ∀ i, 0 ≤ AID.defaultWeights i := by
  intro i
  fin_cases i <;> norm_num [AID.defaultWeights]

/-- The default aggregation weights sum to one. -/
theorem defaultWeights_sum_one : ∑ i, AID.defaultWeights i = 1 := by
  rw [Fin.sum_univ_six]
  norm_num [AID.defaultWeights]

/-- The combined score of unit-interval dimension scores under
nonnegative weights summing to one lies in the closed unit interval. -/
theorem combinedScore_mem_unit (s w : Fin 6 → ℝ)
    (hw0 : ∀ i, 0 ≤ w i) (hw1 : ∑ i, w i = 1)
    (hs : ∀ i, 0 ≤ s i ∧ s i ≤ 1) :
    0 ≤ AID.combinedScore s w ∧ AID.combinedScore s w ≤ 1 := by
  have heps : (0:ℝ) < AID.aidEps := by norm_num [AID.aidEps]
  have hpos : ∀ i, 0 < s i + AID.aidEps := fun i => by
    have := (hs i).1; linarith
  have hlogup : ∀ i, Real.log (s i + AID.aidEps)
      ≤ Real.log (1 + AID.aidEps) := fun i =>
    Real.log_le_log (hpos i) (by have := (hs i).2; linarith)
  have hlogdown : ∀ i, Real.log AID.aidEps
      ≤ Real.log (s i + AID.aidEps) := fun i =>
    Real.log_le_log heps (by have := (hs i).1; linarith)
  have hsumup : ∑ i, w i * Real.log (s i + AID.aidEps)
      ≤ Real.log (1 + AID.aidEps) := by
    calc ∑ i, w i * Real.log (s i + AID.aidEps)
        ≤ ∑ i, w i * Real.log (1 + AID.aidEps) :=
          Finset.sum_le_sum fun i _ =>
            mul_le_mul_of_nonneg_left (hlogup i) (hw0 i)
      _ = (∑ i, w i) * Real.log (1 + AID.aidEps) :=
          (Finset.sum_mul _ _ _).symm
      _ = Real.log (1 + AID.aidEps) := by rw [hw1, one_mul]
  have hsumdown : Real.log AID.aidEps
      ≤ ∑ i, w i * Real.log (s i + AID.aidEps) := by
    calc Real.log AID.aidEps
        = (∑ i, w i) * Real.log AID.aidEps := by rw [hw1, one_mul]
      _ = ∑ i, w i * Real.log AID.aidEps := Finset.sum_mul _ _ _
      _ ≤ ∑ i, w i * Real.log (s i + AID.aidEps) :=
          Finset.sum_le_sum fun i _ =>
            mul_le_mul_of_nonneg_left (hlogdown i) (hw0 i)
  constructor
  · have hlow : AID.aidEps
        ≤ Real.exp (∑ i, w i * Real.log (s i + AID.aidEps)) := by
      calc AID.aidEps = Real.exp (Real.log AID.aidEps) :=
            (Real.exp_log heps).symm
        _ ≤ _ := Real.exp_le_exp.mpr hsumdown
    unfold AID.combinedScore
    linarith
  · have hhigh : Real.exp (∑ i, w i * Real.log (s i + AID.aidEps))
        ≤ 1 + AID.aidEps := by
      calc Real.exp (∑ i, w i * Real.log (s i + AID.aidEps))
          ≤ Real.exp (Real.log (1 + AID.aidEps)) :=
            Real.exp_le_exp.mpr hsumup
        _ = 1 + AID.aidEps := Real.exp_log (by linarith)
    unfold AID.combinedScore
    linarith

/-- Claim C3: for every request and scorer assembly, each of the six
per-dimension score values in the engine VerificationResult lies in
[0,1] (the orchestrator guard enforces the range), and the combined score
produced by the weighted-geometric-mean aggregation of unit-interval
dimension scores under the default weights lies in [0,1] as well. -/
theorem verify_scores_in_unit_interval :
    (∀ (sc : AID.Scorers) (agg : ℚ → ℚ → ℚ → ℚ → ℚ → ℚ → ℚ)
        (t : AID.Thresholds) (req : AID.Request),
        ∀ v ∈ (AID.verify sc agg t req).scores.values, 0 ≤ v ∧ v ≤ 1) ∧
      (∀ s : Fin 6 → ℝ, (∀ i, 0 ≤ s i ∧ s i ≤ 1) →
        0 ≤ AID.combinedScore s AID.defaultWeights ∧
          AID.combinedScore s AID.defaultWeights ≤ 1) := by
  constructor
  · intro sc agg t req v hv
    simp only [AID.verify, AID.DimScores.values, List.mem_cons,
      List.not_mem_nil, or_false] at hv
    rcases hv with h | h | h | h | h | h <;> rw [h] <;>
      apply runScorer_value_mem
  · intro s hs
    exact combinedScore_mem_unit s AID.defaultWeights
      defaultWeights_nonneg defaultWeights_sum_one hs

/-- Witness for C3: the all-ones dimension-score vector yields a combined
score in the unit interval under the default weights. -/
theorem verify_scores_in_unit_interval_witness :
    0 ≤ AID.combinedScore (fun _ => 1) AID.defaultWeights ∧
      AID.combinedScore (fun _ => 1) AID.defaultWeights ≤ 1 :=
  verify_scores_in_unit_interval.2 (fun _ => 1)
    (fun _ => ⟨zero_le_one, le_refl 1⟩)
